import Mathlib

/-!
Shallow embedding of the LL-HLS media-playlist parser (src/src/lib.rs) and
proofs about the claims of its specification.

Modelling conventions:
* Rust `f32` values are modelled as rationals (`ℚ`).  All numeric literals the
  claims exercise are exactly representable, and the parser only ever compares
  parse success/failure, so the rounding step of `f32` is immaterial here; the
  model's float parser accepts finite decimal forms (with optional exponent)
  and not the `inf`/`nan` spellings.
* Rust `u32` is modelled as `Nat` with the `from_str` bound `< 2^32`.
* The input `File` is modelled as the list of raw lines that successive
  `BufRead::read_line` calls return: each element carries its trailing
  newline when one is present in the file, and end-of-file is the end of the
  list.  I/O failures of the line source are not modelled (the scan loop of
  the source exits silently on them, and no claim concerns them).
* Rust's `HashMap` iteration order is unspecified; `read_attributes` is
  modelled iterating in first-insertion key order with last-wins values.
  The observable outcome is order-independent: every recognised attribute
  writes its own distinct builder field and all error values are equal.
-/

namespace LLHLS

/-! ## Character and string utilities (semantics of the Rust std functions used) -/

/-- Whitespace as trimmed by Rust `str::trim` / `str::trim_end` (ASCII part). -/
def isWs (c : Char) : Bool :=
  c = ' ' || c = '\t' || c = '\n' || c = '\r'

/-- Rust `str::split_once(c)`: split at the first occurrence of `c`. -/
def splitOnceChar (c : Char) : List Char → Option (List Char × List Char)
  | [] => none
  | x :: xs =>
    if x = c then some ([], xs)
    else (splitOnceChar c xs).map (fun p => (x :: p.1, p.2))

/-- Rust `str::split(c)`: split at every occurrence of `c` (`""` gives `[""]`). -/
def splitChar (c : Char) : List Char → List (List Char)
  | [] => [[]]
  | x :: xs =>
    if x = c then [] :: splitChar c xs
    else
      match splitChar c xs with
      | h :: t => (x :: h) :: t
      | [] => [[x]]

def trimEndList (l : List Char) : List Char :=
  (l.reverse.dropWhile isWs).reverse

def trimList (l : List Char) : List Char :=
  trimEndList (l.dropWhile isWs)

/-- Rust `str::trim`. -/
def trimStr (s : String) : String := ⟨trimList s.data⟩

/-- Rust `str::trim_end`. -/
def trimEndStr (s : String) : String := ⟨trimEndList s.data⟩

/-- Rust `str::split_once` on strings. -/
def strSplitOnce (c : Char) (s : String) : Option (String × String) :=
  (splitOnceChar c s.data).map (fun p => (⟨p.1⟩, ⟨p.2⟩))

/-- Rust `str::starts_with` for a string pattern. -/
def strStartsWith (s pat : String) : Bool :=
  pat.data.isPrefixOf s.data

/-! ## Numeric parsers (semantics of Rust `u32::from_str` / `f32::from_str`) -/

def digitVal (c : Char) : Nat := c.toNat - '0'.toNat

def digitsToNat (l : List Char) : Nat :=
  l.foldl (fun a c => 10 * a + digitVal c) 0

/-- Rust `u32::from_str`: optional `+` sign, a nonempty run of ASCII digits,
value within the `u32` range. -/
def parseU32 (s : String) : Option Nat :=
  let l := if s.data.headD ' ' = '+' then s.data.tail else s.data
  if l ≠ [] ∧ l.all Char.isDigit ∧ digitsToNat l < 2 ^ 32 then
    some (digitsToNat l)
  else none

def pow10 (k : Nat) : Nat := Nat.pow 10 k

/-- Negation of a rational by construction (kernel-reducible form of `-q`;
the library's `Rat` arithmetic is marked irreducible). -/
def qneg (q : ℚ) : ℚ := mkRat (-q.num) q.den

/-- `q * 10^k` by construction (kernel-reducible). -/
def qscale10 (q : ℚ) (k : Nat) : ℚ := mkRat (q.num * (pow10 k : Int)) q.den

/-- Mantissa and optional exponent of a decimal float literal:
`digits [. digits] [(e|E) [sign] digits]`, at least one mantissa digit. -/
def parseDecimal (l : List Char) : Option ℚ :=
  let ip := l.takeWhile Char.isDigit
  let r1 := l.dropWhile Char.isDigit
  let fpr : List Char × List Char :=
    match r1 with
    | '.' :: r => (r.takeWhile Char.isDigit, r.dropWhile Char.isDigit)
    | _ => ([], r1)
  let fp := fpr.1
  if ip = [] ∧ fp = [] then none
  else
    let m : Int := digitsToNat (ip ++ fp)
    match fpr.2 with
    | [] => some (mkRat m (pow10 fp.length))
    | e :: r =>
      if e = 'e' ∨ e = 'E' then
        let sgn : Bool := r.headD ' ' = '-'
        let r2 := if r.headD ' ' = '-' ∨ r.headD ' ' = '+' then r.tail else r
        if r2 ≠ [] ∧ r2.all Char.isDigit then
          let ex := digitsToNat r2
          some (if sgn then mkRat m (pow10 fp.length * pow10 ex)
                else mkRat (m * (pow10 ex : Int)) (pow10 fp.length))
        else none
      else none

/-- Rust `f32::from_str`, restricted to finite decimal forms (the `inf` /
`nan` spellings are not modelled; no claim involves them). -/
def parseF32 (s : String) : Option ℚ :=
  match s.data with
  | '-' :: r => (parseDecimal r).map qneg
  | '+' :: r => parseDecimal r
  | l => parseDecimal l

/-! ## Float display (semantics of Rust `f32`'s `Display`, on the decimal
rationals the model's parser produces: minimal decimal digits). -/

def padZeros (s : String) (k : Nat) : String :=
  ⟨List.replicate (k - s.length) '0' ++ s.data⟩

def dispF32Nonneg (q : ℚ) : String :=
  match (List.range 40).find? (fun k => (qscale10 q k).den = 1) with
  | none => toString q
  | some k =>
    let n := (qscale10 q k).num.toNat
    if k = 0 then toString n
    else toString (n / pow10 k) ++ "." ++ padZeros (toString (n % pow10 k)) k

/-- Display of an `f32` value (model: the value's shortest decimal form;
agrees with Rust on every decimal-exact value appearing here). -/
def dispF32 (q : ℚ) : String :=
  if q.num < 0 then "-" ++ dispF32Nonneg (qneg q) else dispF32Nonneg q

/-! ## External collaborators (not part of src/) -/

/-- Modelled from the spec: the URI validator (`fluent_uri::Uri::parse_from`)
is an external collaborator that, given a raw string, returns a validated URI
value or rejects it.  Modelled as accepting exactly the strings made of
RFC 3986 URI-reference characters. -/
def isUriChar (c : Char) : Bool :=
  c.isAlphanum ||
  c = '-' || c = '.' || c = '_' || c = '~' || c = ':' || c = '/' ||
  c = '?' || c = '#' || c = '[' || c = ']' || c = '@' || c = '!' ||
  c = '$' || c = '&' || c = '(' || c = ')' || c = '*' || c = '+' ||
  c = ',' || c = ';' || c = '=' || c = '%'

/-- Modelled from the spec: URI validation outcome (see `isUriChar`). -/
def uriParse (s : String) : Option String :=
  if s.data.all isUriChar then some s else none

/-- Modelled from the spec: the date-time parser (`chrono::DateTime::from_str`)
is an external collaborator parsing an ISO-8601-with-offset timestamp.
Modelled as a wrapper of the raw accepted text. -/
structure DateTime where
  raw : String
  deriving DecidableEq, Repr

/-- Modelled from the spec: date-time parse outcome; accepts strings of the
rough ISO-8601 shape (a `T` separator and only timestamp characters). -/
def dateTimeParse (s : String) : Option DateTime :=
  if s.data.contains 'T' &&
      s.data.all (fun c => c.isDigit || c = 'T' || c = 'Z' || c = ':' ||
        c = '+' || c = '-' || c = '.') then
    some ⟨s⟩
  else none

/-! ## Data model (the sealed entities of src/src/lib.rs) -/

structure PartInf where
  part_target : ℚ
  deriving DecidableEq, Repr

structure ServerControl where
  can_block_reload : Bool
  part_hold_back : ℚ
  can_skip_until : ℚ
  deriving DecidableEq, Repr

structure PartialSegment where
  part_duration : ℚ
  uri : String
  independent : Option Bool
  deriving DecidableEq, Repr

structure Skip where
  skipped_segments : Nat
  recently_removed_dateranges : List String
  deriving DecidableEq, Repr

inductive PreloadHintType
  | Part
  | Map
  deriving DecidableEq, Repr

structure PreloadHint where
  type : PreloadHintType
  uri : String
  byterange_start : Option Nat
  byterange_length : Option Nat
  deriving DecidableEq, Repr

structure RenditionReport where
  uri : String
  last_msn : Nat
  last_part : Nat
  deriving DecidableEq, Repr

structure MediaSegment where
  duration : ℚ
  uri : String
  partial_segments : List PartialSegment
  program_date_time : Option DateTime
  deriving DecidableEq, Repr

structure MediaPlaylist where
  target_duration : Nat
  version : Nat
  part_inf : PartInf
  media_sequence_number : Nat
  media_segments : List MediaSegment
  skip : Option Skip
  preload_hint : Option PreloadHint
  rendition_reports : List RenditionReport
  server_control : ServerControl
  deriving DecidableEq, Repr

/-! ## Error types -/

structure ParseTagError : Type where
  deriving DecidableEq, Repr

structure ParseAttributeError : Type where
  deriving DecidableEq, Repr

inductive ParsePlaylistError
  | EXT3U_TAG_MISSING
  | BUILDER_ERROR
  | IO_ERROR
  | UNRECOGNIZED_TAG (tag : String)
  deriving DecidableEq, Repr

/-! ## Builders (semantics of the `derive_builder`-generated builders: every
field starts unset, a setter writes `some`, `build` fails while any field of
the target struct is still unset). -/

structure PartInfBuilder where
  part_target : Option ℚ := none
  deriving DecidableEq, Repr

def PartInfBuilder.build (b : PartInfBuilder) : Option PartInf :=
  match b.part_target with
  | some t => some ⟨t⟩
  | none => none

structure ServerControlBuilder where
  can_block_reload : Option Bool := none
  part_hold_back : Option ℚ := none
  can_skip_until : Option ℚ := none
  deriving DecidableEq, Repr

def ServerControlBuilder.build (b : ServerControlBuilder) : Option ServerControl :=
  match b.can_block_reload, b.part_hold_back, b.can_skip_until with
  | some c, some p, some s => some ⟨c, p, s⟩
  | _, _, _ => none

structure PartialSegmentBuilder where
  part_duration : Option ℚ := none
  uri : Option String := none
  independent : Option (Option Bool) := none
  deriving DecidableEq, Repr

def PartialSegmentBuilder.build (b : PartialSegmentBuilder) : Option PartialSegment :=
  match b.part_duration, b.uri, b.independent with
  | some d, some u, some i => some ⟨d, u, i⟩
  | _, _, _ => none

structure SkipBuilder where
  skipped_segments : Option Nat := none
  recently_removed_dateranges : Option (List String) := none
  deriving DecidableEq, Repr

def SkipBuilder.build (b : SkipBuilder) : Option Skip :=
  match b.skipped_segments, b.recently_removed_dateranges with
  | some s, some r => some ⟨s, r⟩
  | _, _ => none

structure PreloadHintBuilder where
  type : Option PreloadHintType := none
  uri : Option String := none
  byterange_start : Option (Option Nat) := none
  byterange_length : Option (Option Nat) := none
  deriving DecidableEq, Repr

def PreloadHintBuilder.build (b : PreloadHintBuilder) : Option PreloadHint :=
  match b.type, b.uri, b.byterange_start, b.byterange_length with
  | some t, some u, some s, some l => some ⟨t, u, s, l⟩
  | _, _, _, _ => none

structure RenditionReportBuilder where
  uri : Option String := none
  last_msn : Option Nat := none
  last_part : Option Nat := none
  deriving DecidableEq, Repr

def RenditionReportBuilder.build (b : RenditionReportBuilder) : Option RenditionReport :=
  match b.uri, b.last_msn, b.last_part with
  | some u, some m, some p => some ⟨u, m, p⟩
  | _, _, _ => none

structure MediaSegmentBuilder where
  duration : Option ℚ := none
  uri : Option String := none
  partial_segments : Option (List PartialSegment) := none
  program_date_time : Option (Option DateTime) := none
  deriving DecidableEq, Repr

def MediaSegmentBuilder.build (b : MediaSegmentBuilder) : Option MediaSegment :=
  match b.duration, b.uri, b.partial_segments, b.program_date_time with
  | some d, some u, some p, some t => some ⟨d, u, p, t⟩
  | _, _, _, _ => none

structure MediaPlaylistBuilder where
  target_duration : Option Nat := none
  version : Option Nat := none
  part_inf : Option PartInf := none
  media_sequence_number : Option Nat := none
  media_segments : Option (List MediaSegment) := none
  skip : Option (Option Skip) := none
  preload_hint : Option (Option PreloadHint) := none
  rendition_reports : Option (List RenditionReport) := none
  server_control : Option ServerControl := none
  deriving DecidableEq, Repr

def MediaPlaylistBuilder.build (b : MediaPlaylistBuilder) : Option MediaPlaylist :=
  match b.target_duration, b.version, b.part_inf, b.media_sequence_number,
      b.media_segments, b.skip, b.preload_hint, b.rendition_reports,
      b.server_control with
  | some td, some v, some pi, some msn, some ms, some sk, some ph, some rr,
      some sc => some ⟨td, v, pi, msn, ms, sk, ph, rr, sc⟩
  | _, _, _, _, _, _, _, _, _ => none

/-! ## The YES/NO boolean vocabulary -/

inductive YesNo
  | Yes
  | No
  deriving DecidableEq, Repr

def YesNo.from_str (s : String) : Except ParseAttributeError YesNo :=
  if s = "YES" then .ok .Yes
  else if s = "NO" then .ok .No
  else .error ⟨⟩

def YesNo.toBool : YesNo → Bool
  | .Yes => true
  | .No => false

/-! ## Attribute-list parser (`read_attributes`, src/src/lib.rs lines 592-608)

The split stage: split on every comma, keep only the elements containing `=`
(split at the first `=`), collect into a map where a repeated key keeps the
last value (Rust `HashMap` collect). -/

def rawPairs (s : String) : List (String × String) :=
  (splitChar ',' s.data).filterMap
    (fun e => (splitOnceChar '=' e).map
      (fun p => ((⟨p.1⟩ : String), (⟨p.2⟩ : String))))

/-- One `HashMap` insertion: overwrite the value when the key is present. -/
def insertPair (m : List (String × String)) (k v : String) :
    List (String × String) :=
  if m.any (fun p => p.1 = k) then
    m.map (fun p => if p.1 = k then (k, v) else p)
  else m ++ [(k, v)]

def collectPairs (l : List (String × String)) : List (String × String) :=
  l.foldl (fun m p => insertPair m p.1 p.2) []

/-- The attribute mapping a tag's value string yields in `read_attributes`. -/
def attrsOf (s : String) : List (String × String) :=
  collectPairs (rawPairs s)

/-- The attribute loop of `read_attributes`: resolve each attribute name via
`fromStr` (failing on an unrecognised name) and apply its field write via
`rd`. -/
def readAttrsList {T B : Type}
    (fromStr : String → Except ParseAttributeError T)
    (rd : T → B → String → Except ParseAttributeError B) :
    List (String × String) → B → Except ParseAttributeError B
  | [], b => .ok b
  | kv :: rest, b =>
    match fromStr kv.1 with
    | .error e => .error e
    | .ok a =>
      match rd a b kv.2 with
      | .error e => .error e
      | .ok b2 => readAttrsList fromStr rd rest b2

/-- `read_attributes::<T, B>` (src/src/lib.rs lines 592-608). -/
def read_attributes {T B : Type}
    (fromStr : String → Except ParseAttributeError T)
    (rd : T → B → String → Except ParseAttributeError B)
    (s : String) (b : B) : Except ParseAttributeError B :=
  readAttrsList fromStr rd (attrsOf s) b

/-! ## Attribute mappers -/

inductive ServerControlAttribute
  | CanBlockReload
  | PartHoldBack
  | CanSkipUntil
  deriving DecidableEq, Repr

def ServerControlAttribute.from_str (s : String) :
    Except ParseAttributeError ServerControlAttribute :=
  if s = "CAN-BLOCK-RELOAD" then .ok .CanBlockReload
  else if s = "PART-HOLD-BACK" then .ok .PartHoldBack
  else if s = "CAN-SKIP-UNTIL" then .ok .CanSkipUntil
  else .error ⟨⟩

def ServerControlAttribute.read (a : ServerControlAttribute)
    (b : ServerControlBuilder) (attrVal : String) :
    Except ParseAttributeError ServerControlBuilder :=
  match a with
  | .CanBlockReload =>
    match YesNo.from_str attrVal with
    | .error _ => .error ⟨⟩
    | .ok y => .ok { b with can_block_reload := some y.toBool }
  | .PartHoldBack =>
    match parseF32 attrVal with
    | none => .error ⟨⟩
    | some q => .ok { b with part_hold_back := some q }
  | .CanSkipUntil =>
    match parseF32 attrVal with
    | none => .error ⟨⟩
    | some q => .ok { b with can_skip_until := some q }

inductive PartialSegmentAttribute
  | Duration
  | Uri
  | Independent
  deriving DecidableEq, Repr

def PartialSegmentAttribute.from_str (s : String) :
    Except ParseAttributeError PartialSegmentAttribute :=
  if s = "DURATION" then .ok .Duration
  else if s = "URI" then .ok .Uri
  else if s = "INDEPENDENT" then .ok .Independent
  else .error ⟨⟩

def PartialSegmentAttribute.read (a : PartialSegmentAttribute)
    (b : PartialSegmentBuilder) (attrVal : String) :
    Except ParseAttributeError PartialSegmentBuilder :=
  match a with
  | .Duration =>
    match parseF32 attrVal with
    | none => .error ⟨⟩
    | some q => .ok { b with part_duration := some q }
  | .Uri => .ok { b with uri := some attrVal }
  | .Independent =>
    match YesNo.from_str attrVal with
    | .error _ => .error ⟨⟩
    | .ok y => .ok { b with independent := some (some y.toBool) }

inductive RenditionReportAttribute
  | Uri
  | LastMsn
  | LastPart
  deriving DecidableEq, Repr

def RenditionReportAttribute.from_str (s : String) :
    Except ParseAttributeError RenditionReportAttribute :=
  if s = "URI" then .ok .Uri
  else if s = "LAST-MSN" then .ok .LastMsn
  else if s = "LAST-PART" then .ok .LastPart
  else .error ⟨⟩

def RenditionReportAttribute.read (a : RenditionReportAttribute)
    (b : RenditionReportBuilder) (attrVal : String) :
    Except ParseAttributeError RenditionReportBuilder :=
  match a with
  | .Uri => .ok { b with uri := some attrVal }
  | .LastMsn =>
    match parseU32 attrVal with
    | none => .error ⟨⟩
    | some n => .ok { b with last_msn := some n }
  | .LastPart =>
    match parseU32 attrVal with
    | none => .error ⟨⟩
    | some n => .ok { b with last_part := some n }

inductive PreloadHintAttribute
  | Type
  | Uri
  deriving DecidableEq, Repr

def PreloadHintAttribute.from_str (s : String) :
    Except ParseAttributeError PreloadHintAttribute :=
  if s = "TYPE" then .ok .Type
  else if s = "URI" then .ok .Uri
  else .error ⟨⟩

def PreloadHintType.from_str (s : String) :
    Except ParseAttributeError PreloadHintType :=
  if s = "PART" then .ok .Part
  else if s = "MAP" then .ok .Map
  else .error ⟨⟩

def PreloadHintAttribute.read (a : PreloadHintAttribute)
    (b : PreloadHintBuilder) (attrVal : String) :
    Except ParseAttributeError PreloadHintBuilder :=
  match a with
  | .Type =>
    match PreloadHintType.from_str attrVal with
    | .error e => .error e
    | .ok t => .ok { b with type := some t }
  | .Uri => .ok { b with uri := some attrVal }

inductive PartInfAttribute
  | PartTarget
  deriving DecidableEq, Repr

def PartInfAttribute.from_str (s : String) :
    Except ParseAttributeError PartInfAttribute :=
  if s = "PART-TARGET" then .ok .PartTarget else .error ⟨⟩

def PartInfAttribute.read (a : PartInfAttribute) (b : PartInfBuilder)
    (attrVal : String) : Except ParseAttributeError PartInfBuilder :=
  match a with
  | .PartTarget =>
    match parseF32 attrVal with
    | none => .error ⟨⟩
    | some q => .ok { b with part_target := some q }

inductive SkipAttribute
  | SkippedSegments
  | RecentlyRemovedDateRanges
  deriving DecidableEq, Repr

def SkipAttribute.from_str (s : String) :
    Except ParseAttributeError SkipAttribute :=
  if s = "SKIPPED-SEGMENTS" then .ok .SkippedSegments
  else if s = "RECENTLY-REMOVED-DATERANGES" then .ok .RecentlyRemovedDateRanges
  else .error ⟨⟩

def SkipAttribute.read (a : SkipAttribute) (b : SkipBuilder)
    (attrVal : String) : Except ParseAttributeError SkipBuilder :=
  match a with
  | .SkippedSegments =>
    match parseU32 attrVal with
    | none => .error ⟨⟩
    | some n => .ok { b with skipped_segments := some n }
  | .RecentlyRemovedDateRanges =>
    let ranges := (splitChar '\t' attrVal.data).map (fun l => (⟨l⟩ : String))
    .ok { b with recently_removed_dateranges := some ranges }

/-! ## Entity `FromStr` implementations -/

def ServerControl.from_str (s : String) : Except ParseTagError ServerControl :=
  match read_attributes ServerControlAttribute.from_str
      ServerControlAttribute.read s {} with
  | .error _ => .error ⟨⟩
  | .ok b =>
    match b.build with
    | some sc => .ok sc
    | none => .error ⟨⟩

def PartialSegment.from_str (s : String) : Except ParseTagError PartialSegment :=
  match read_attributes PartialSegmentAttribute.from_str
      PartialSegmentAttribute.read s {} with
  | .error _ => .error ⟨⟩
  | .ok b =>
    let b := if b.independent = none then { b with independent := some none }
             else b
    match b.build with
    | some p => .ok p
    | none => .error ⟨⟩

def RenditionReport.from_str (s : String) :
    Except ParseTagError RenditionReport :=
  match read_attributes RenditionReportAttribute.from_str
      RenditionReportAttribute.read s {} with
  | .error _ => .error ⟨⟩
  | .ok b =>
    match b.build with
    | some r => .ok r
    | none => .error ⟨⟩

def PreloadHint.from_str (s : String) : Except ParseTagError PreloadHint :=
  match read_attributes PreloadHintAttribute.from_str
      PreloadHintAttribute.read s {} with
  | .error _ => .error ⟨⟩
  | .ok b =>
    let b := if b.byterange_start = none then { b with byterange_start := some none }
             else b
    let b := if b.byterange_length = none then { b with byterange_length := some none }
             else b
    match b.build with
    | some p => .ok p
    | none => .error ⟨⟩

def PartInf.from_str (s : String) : Except ParseTagError PartInf :=
  match read_attributes PartInfAttribute.from_str PartInfAttribute.read s {} with
  | .error _ => .error ⟨⟩
  | .ok b =>
    match b.build with
    | some p => .ok p
    | none => .error ⟨⟩

def Skip.from_str (s : String) : Except ParseTagError Skip :=
  match read_attributes SkipAttribute.from_str SkipAttribute.read s {} with
  | .error _ => .error ⟨⟩
  | .ok b =>
    let b := if b.recently_removed_dateranges = none then
               { b with recently_removed_dateranges := some [] }
             else b
    match b.build with
    | some sk => .ok sk
    | none => .error ⟨⟩

/-! ## Tag registry / dispatcher -/

inductive MediaPlaylistTag
  | TargetDuration
  | Version
  | PartInf
  | MediaSequence
  | Skip
  | PreloadHint
  | RenditionReport
  | ServerControl
  deriving DecidableEq, Repr

def MediaPlaylistTag.from_str (value : String) :
    Except ParseTagError MediaPlaylistTag :=
  if value = "EXT-X-TARGETDURATION" then .ok .TargetDuration
  else if value = "EXT-X-VERSION" then .ok .Version
  else if value = "EXT-X-PART-INF" then .ok .PartInf
  else if value = "EXT-X-MEDIA-SEQUENCE" then .ok .MediaSequence
  else if value = "EXT-X-SKIP" then .ok .Skip
  else if value = "EXT-X-PRELOAD-HINT" then .ok .PreloadHint
  else if value = "EXT-X-RENDITION-REPORT" then .ok .RenditionReport
  else if value = "EXT-X-SERVER-CONTROL" then .ok .ServerControl
  else .error ⟨⟩

inductive MediaSegmentTag
  | Inf
  | Part
  | Uri
  | ProgramDateTime
  deriving DecidableEq, Repr

/-- `MediaSegmentTag::from_str` never fails: every unrecognised name falls
through to the `Uri` pseudo-tag (src/src/lib.rs lines 254-266). -/
def MediaSegmentTag.from_str (s : String) :
    Except ParseTagError MediaSegmentTag :=
  if s = "EXTINF" then .ok .Inf
  else if s = "EXT-X-PART" then .ok .Part
  else if s = "EXT-X-PROGRAM-DATE-TIME" then .ok .ProgramDateTime
  else .ok .Uri

/-- `WrappedMediaSegmentBuilder`: the in-progress segment plus the partial
segments accumulated since the previous boundary. -/
structure WrappedMediaSegmentBuilder where
  segment : MediaSegmentBuilder := {}
  parts : List PartialSegment := []
  deriving DecidableEq, Repr

def MediaSegmentTag.read (t : MediaSegmentTag)
    (b : WrappedMediaSegmentBuilder) (attributes : String) :
    Except ParseTagError WrappedMediaSegmentBuilder :=
  match t with
  | .Inf =>
    match strSplitOnce ',' attributes with
    | none => .error ⟨⟩
    | some pr =>
      match parseF32 pr.1 with
      | none => .error ⟨⟩
      | some d => .ok { b with segment := { b.segment with duration := some d } }
  | .Part =>
    match PartialSegment.from_str attributes with
    | .error _ => .error ⟨⟩
    | .ok p => .ok { b with parts := b.parts ++ [p] }
  | .Uri =>
    match uriParse attributes with
    | none => .error ⟨⟩
    | some u => .ok { b with segment := { b.segment with uri := some u } }
  | .ProgramDateTime =>
    match dateTimeParse attributes with
    | none => .error ⟨⟩
    | some dt =>
      .ok { b with segment := { b.segment with program_date_time := some (some dt) } }

/-- `WrappedMediaPlaylistBuilder`: the playlist builder plus the ordered
aggregate lists it accumulates during the scan. -/
structure WrappedMediaPlaylistBuilder where
  playlist : MediaPlaylistBuilder := {}
  rendition_reports : List RenditionReport := []
  media_segments : List MediaSegment := []
  deriving DecidableEq, Repr

def MediaPlaylistTag.read (t : MediaPlaylistTag)
    (b : WrappedMediaPlaylistBuilder) (attributes : String) :
    Except ParseTagError WrappedMediaPlaylistBuilder :=
  match t with
  | .TargetDuration =>
    match parseU32 attributes with
    | none => .error ⟨⟩
    | some n => .ok { b with playlist := { b.playlist with target_duration := some n } }
  | .Version =>
    match parseU32 attributes with
    | none => .error ⟨⟩
    | some n => .ok { b with playlist := { b.playlist with version := some n } }
  | .PartInf =>
    match PartInf.from_str attributes with
    | .error _ => .error ⟨⟩
    | .ok p => .ok { b with playlist := { b.playlist with part_inf := some p } }
  | .MediaSequence =>
    match parseU32 attributes with
    | none => .error ⟨⟩
    | some n =>
      .ok { b with playlist := { b.playlist with media_sequence_number := some n } }
  | .Skip =>
    match Skip.from_str attributes with
    | .error _ => .error ⟨⟩
    | .ok sk => .ok { b with playlist := { b.playlist with skip := some (some sk) } }
  | .PreloadHint =>
    match PreloadHint.from_str attributes with
    | .error _ => .error ⟨⟩
    | .ok ph =>
      .ok { b with playlist := { b.playlist with preload_hint := some (some ph) } }
  | .RenditionReport =>
    match RenditionReport.from_str attributes with
    | .error _ => .error ⟨⟩
    | .ok rr => .ok { b with rendition_reports := b.rendition_reports ++ [rr] }
  | .ServerControl =>
    match ServerControl.from_str attributes with
    | .error _ => .error ⟨⟩
    | .ok sc => .ok { b with playlist := { b.playlist with server_control := some sc } }

/-! ## Serialization (`impl fmt::Display for PartialSegment`) -/

def joinComma : List String → String
  | [] => ""
  | [x] => x
  | x :: xs => x ++ "," ++ joinComma xs

/-- The `Display` form of a `PartialSegment` (src/src/lib.rs lines 659-681);
note the asymmetric boolean literals: `true` is written `YES`, `false` is
written `FALSE`. -/
def PartialSegment.fmt (p : PartialSegment) : String :=
  let attrs : List (String × String) :=
    [("DURATION", dispF32 p.part_duration), ("URI", p.uri)] ++
      (match p.independent with
       | some i => [("INDEPENDENT", if i then "YES" else "FALSE")]
       | none => [])
  let attrs_str := attrs.map (fun nv => nv.1 ++ "=" ++ nv.2)
  "#EXT-X-PART:" ++ joinComma attrs_str

/-! ## The scanning state machine (`read_playlist`) -/

structure ScanState where
  builder : WrappedMediaPlaylistBuilder
  media_segment_builder : WrappedMediaSegmentBuilder
  deriving DecidableEq, Repr

/-- The state `read_playlist` sets up after the header line: every field of
the wrapped builders empty except the `skip` / `preload_hint` defaults. -/
def initState : ScanState :=
  { builder := { playlist := { skip := some none, preload_hint := some none } },
    media_segment_builder := {} }

/-- The `is_uri` classification of the scan loop: a non-`#`-prefixed,
non-blank line. -/
def isUriLine (line : String) : Bool :=
  !(strStartsWith line "#") && !(trimStr line = "")

/-- The tag-dispatch half of the scan-loop body of `read_playlist`
(src/src/lib.rs lines 720-743). -/
def scan_step_tags (line : String) (st : ScanState) :
    Except ParsePlaylistError ScanState :=
  if strStartsWith line "#EXT-X" || strStartsWith line "#EXT" then
    match strSplitOnce ':' (trimEndStr line) with
    | none => .error .IO_ERROR
    | some tag =>
      match strSplitOnce '#' tag.1 with
      | none => .error .IO_ERROR
      | some pr =>
        match MediaPlaylistTag.from_str pr.2 with
        | .ok media_playlist_tag =>
          match media_playlist_tag.read st.builder tag.2 with
          | .error _ => .error .BUILDER_ERROR
          | .ok b => .ok { st with builder := b }
        | .error _ =>
          match MediaSegmentTag.from_str pr.2 with
          | .ok media_segment_tag =>
            match media_segment_tag.read st.media_segment_builder tag.2 with
            | .error _ => .error .BUILDER_ERROR
            | .ok m => .ok { st with media_segment_builder := m }
          | .error _ => .ok st
  else if isUriLine line then
    match MediaSegmentTag.from_str line with
    | .ok media_segment_tag =>
      match media_segment_tag.read st.media_segment_builder (trimEndStr line) with
      | .error _ => .error .BUILDER_ERROR
      | .ok m => .ok { st with media_segment_builder := m }
    | .error _ => .ok st
  else .ok st

/-- The segment-boundary half of the scan-loop body of `read_playlist`
(src/src/lib.rs lines 744-759): on a resource-locator line (or the
defensive end-of-list marker) seal the in-progress segment, append it, and
begin a fresh segment builder. -/
def scan_step_seal (line : String) (st1 : ScanState) :
    Except ParsePlaylistError ScanState :=
  if isUriLine line || line = "EXT-X-ENDLIST" then
    let wsb := st1.media_segment_builder
    let seg0 := if wsb.segment.program_date_time = none then
        { wsb.segment with program_date_time := some none }
      else wsb.segment
    match { seg0 with partial_segments := some wsb.parts }.build with
    | none => .error .BUILDER_ERROR
    | some seg =>
      .ok { builder := { st1.builder with
              media_segments := st1.builder.media_segments ++ [seg] },
            media_segment_builder := {} }
  else .ok st1

/-- One iteration of the scan loop of `read_playlist`
(src/src/lib.rs lines 719-759), for one raw line. -/
def scan_step (line : String) (st : ScanState) :
    Except ParsePlaylistError ScanState :=
  match scan_step_tags line st with
  | .error e => .error e
  | .ok st1 => scan_step_seal line st1

/-- The scan loop: lines are processed in order; `read_line` returning an
empty line (zero bytes read) ends the loop after a no-op iteration. -/
def scan : List String → ScanState → Except ParsePlaylistError ScanState
  | [], st => .ok st
  | l :: ls, st =>
    if l = "" then .ok st
    else
      match scan_step l st with
      | .error e => .error e
      | .ok st1 => scan ls st1

/-- The final sealing step of `read_playlist` (src/src/lib.rs lines 765-771):
install the aggregate lists and build the playlist. -/
def finalBuild (st : ScanState) : Except ParsePlaylistError MediaPlaylist :=
  match { st.builder.playlist with
          media_segments := some st.builder.media_segments,
          rendition_reports := some st.builder.rendition_reports }.build with
  | none => .error .BUILDER_ERROR
  | some p => .ok p

/-- `read_playlist` on the list of raw lines of the input file. -/
def read_playlist (lines : List String) :
    Except ParsePlaylistError MediaPlaylist :=
  let line := lines.headD ""
  if trimStr line = "#EXTM3U" then
    match scan lines.tail initState with
    | .error e => .error e
    | .ok st => finalBuild st
  else .error .EXT3U_TAG_MISSING

/-! ## Specification-side helpers used only to state properties -/

/-- First value stored under key `k` in an association list. -/
def lookupVal (k : String) : List (String × String) → Option String
  | [] => none
  | p :: ps => if p.1 = k then some p.2 else lookupVal k ps

/-- Reference reading of an attribute list, stated independently of the map
collection: walk the comma-split elements left to right, skip the ones
without `=`, and let the last element carrying key `k` win. -/
def lastMatch (k : String) (elems : List (List Char)) : Option String :=
  elems.foldl
    (fun acc e =>
      match splitOnceChar '=' e with
      | some p => if (⟨p.1⟩ : String) = k then some (⟨p.2⟩ : String) else acc
      | none => acc) none

/-! ## Concrete documents used by witnesses and counterexamples -/

/-- The spec's §8 sample document, with two partial-segment lines before the
segment's resource-locator line. -/
def docTwoParts : List String :=
  ["#EXTM3U\n",
   "#EXT-X-TARGETDURATION:6\n",
   "#EXT-X-VERSION:9\n",
   "#EXT-X-PART-INF:PART-TARGET=0.5\n",
   "#EXT-X-MEDIA-SEQUENCE:0\n",
   "#EXT-X-SERVER-CONTROL:CAN-BLOCK-RELOAD=YES,PART-HOLD-BACK=1.5,CAN-SKIP-UNTIL=6.0\n",
   "#EXTINF:6.0,\n",
   "#EXT-X-PART:DURATION=0.5,URI=\"p0.mp4\"\n",
   "#EXT-X-PART:DURATION=0.5,URI=\"p1.mp4\",INDEPENDENT=YES\n",
   "file0.mp4\n"]

/-- A document valid except for a leading space before the header marker. -/
def docLeadingWsHeader : List String :=
  [" #EXTM3U\n",
   "#EXT-X-TARGETDURATION:6\n",
   "#EXT-X-VERSION:9\n",
   "#EXT-X-PART-INF:PART-TARGET=0.5\n",
   "#EXT-X-MEDIA-SEQUENCE:0\n",
   "#EXT-X-SERVER-CONTROL:CAN-BLOCK-RELOAD=YES,PART-HOLD-BACK=1.5,CAN-SKIP-UNTIL=6.0\n",
   "#EXTINF:6.0,\n",
   "file0.mp4\n"]

/-- A document whose `EXT-X-SERVER-CONTROL` tag omits `CAN-BLOCK-RELOAD`. -/
def docNoCBR : List String :=
  ["#EXTM3U\n",
   "#EXT-X-TARGETDURATION:6\n",
   "#EXT-X-VERSION:9\n",
   "#EXT-X-PART-INF:PART-TARGET=0.5\n",
   "#EXT-X-MEDIA-SEQUENCE:0\n",
   "#EXT-X-SERVER-CONTROL:PART-HOLD-BACK=1.5,CAN-SKIP-UNTIL=6.0\n",
   "#EXTINF:6.0,\n",
   "file0.mp4\n"]

/-- A document with a tag line carrying no `:` separator. -/
def docNoColon : List String :=
  ["#EXTM3U\n", "#EXTFOO\n"]

/-- A scan state in the middle of a segment: duration set and two partial
segments accumulated, awaiting the resource-locator line. -/
def stSegReady : ScanState :=
  { builder := {},
    media_segment_builder :=
      { segment := { duration := some (mkRat 5 1) },
        parts := [⟨mkRat 1 4, "q0.mp4", none⟩, ⟨mkRat 1 4, "q1.mp4", some true⟩] } }

/-- A scan state with every mandatory scalar playlist field set (and the
`skip` / `preload_hint` defaults), but with the aggregate-list builder
fields still unset — final sealing must succeed regardless. -/
def stAllSet : ScanState :=
  { builder := { playlist :=
      { target_duration := some 6,
        version := some 9,
        part_inf := some ⟨mkRat 1 2⟩,
        media_sequence_number := some 0,
        media_segments := none,
        skip := some none,
        preload_hint := some none,
        rendition_reports := none,
        server_control := some ⟨true, mkRat 3 2, mkRat 6 1⟩ } },
    media_segment_builder := {} }

/-! # Theorems -/

/-! ## Facts about the split utilities -/

theorem splitOnceChar_of_not_mem {c : Char} {l : List Char} (h : c ∉ l) :
    splitOnceChar c l = none := by
  induction l with
  | nil => rfl
  | cons x xs ih =>
    simp only [List.mem_cons, not_or] at h
    have hxc : ¬ x = c := fun hh => h.1 hh.symm
    simp [splitOnceChar, hxc, ih h.2]

theorem splitOnceChar_append {c : Char} {xs ys : List Char} (h : c ∉ xs) :
    splitOnceChar c (xs ++ c :: ys) = some (xs, ys) := by
  induction xs with
  | nil => simp [splitOnceChar]
  | cons x xt ih =>
    simp only [List.mem_cons, not_or] at h
    have hxc : ¬ x = c := fun hh => h.1 hh.symm
    simp [splitOnceChar, hxc, ih h.2]

theorem splitChar_of_not_mem {c : Char} {l : List Char} (h : c ∉ l) :
    splitChar c l = [l] := by
  induction l with
  | nil => rfl
  | cons x xs ih =>
    simp only [List.mem_cons, not_or] at h
    have hxc : ¬ x = c := fun hh => h.1 hh.symm
    simp [splitChar, hxc, ih h.2]

theorem splitChar_append {c : Char} {xs ys : List Char} (h : c ∉ xs) :
    splitChar c (xs ++ c :: ys) = xs :: splitChar c ys := by
  induction xs with
  | nil => simp [splitChar]
  | cons x xt ih =>
    simp only [List.mem_cons, not_or] at h
    have hxc : ¬ x = c := fun hh => h.1 hh.symm
    simp [splitChar, hxc, ih h.2]

/-! ## Facts about the attribute-map collection -/

theorem lookupVal_map_overwrite {q v k : String} {m : List (String × String)}
    (h : ¬ q = k) :
    lookupVal k (m.map (fun p => if p.1 = q then (q, v) else p)) =
      lookupVal k m := by
  induction m with
  | nil => rfl
  | cons p ps ih =>
    by_cases hp : p.1 = q
    · simp [lookupVal, hp, h, ih]
    · simp [lookupVal, hp, ih]

theorem lookupVal_map_overwrite_mem {q v : String} {m : List (String × String)}
    (hm : m.any (fun p => p.1 = q) = true) :
    lookupVal q (m.map (fun p => if p.1 = q then (q, v) else p)) = some v := by
  induction m with
  | nil => simp at hm
  | cons p ps ih =>
    by_cases hp : p.1 = q
    · simp [lookupVal, hp]
    · have hm2 : ps.any (fun p => p.1 = q) = true := by
        simpa [List.any_cons, hp] using hm
      simp [lookupVal, hp, ih hm2]

theorem lookupVal_append_single {k q v : String} {m : List (String × String)} :
    lookupVal k (m ++ [(q, v)]) =
      match lookupVal k m with
      | some w => some w
      | none => if q = k then some v else none := by
  induction m with
  | nil => simp [lookupVal]
  | cons p ps ih =>
    by_cases hp : p.1 = k
    · simp [lookupVal, hp]
    · simp [lookupVal, hp, ih]

theorem lookupVal_of_no_key {k : String} {m : List (String × String)}
    (h : ∀ p ∈ m, ¬ p.1 = k) : lookupVal k m = none := by
  induction m with
  | nil => rfl
  | cons p ps ih =>
    have hp : ¬ p.1 = k := h p (List.mem_cons_self p ps)
    simp [lookupVal, hp, ih (fun x hx => h x (List.mem_cons_of_mem p hx))]

theorem no_key_of_any_false {q : String} {m : List (String × String)}
    (hm : m.any (fun p => p.1 = q) = false) : ∀ p ∈ m, ¬ p.1 = q := by
  intro p hp hq
  have htrue : m.any (fun p => p.1 = q) = true :=
    List.any_eq_true.mpr ⟨p, hp, by simp [hq]⟩
  rw [hm] at htrue
  exact Bool.false_ne_true htrue

theorem lookupVal_insertPair {q v k : String} {m : List (String × String)} :
    lookupVal k (insertPair m q v) =
      if q = k then some v else lookupVal k m := by
  by_cases hm : m.any (fun p => p.1 = q) = true
  · by_cases hq : q = k
    · subst hq
      simp [insertPair, hm, lookupVal_map_overwrite_mem hm]
    · simp [insertPair, hm, lookupVal_map_overwrite hq, hq]
  · have hm2 : m.any (fun p => p.1 = q) = false := Bool.eq_false_iff.mpr hm
    have hnk : ∀ p ∈ m, ¬ p.1 = q := no_key_of_any_false hm2
    rw [insertPair, if_neg hm, lookupVal_append_single]
    by_cases hq : q = k
    · subst hq
      rw [lookupVal_of_no_key hnk]
    · cases hlv : lookupVal k m <;> simp [hq]

theorem keys_map_overwrite (q v : String) (m : List (String × String)) :
    (m.map (fun p => if p.1 = q then (q, v) else p)).map Prod.fst =
      m.map Prod.fst := by
  induction m with
  | nil => rfl
  | cons p ps ih =>
    by_cases hp : p.1 = q
    · simp [hp, ih]
    · simp [hp, ih]

theorem keys_insertPair_mem {q v : String} {m : List (String × String)}
    (hm : m.any (fun p => p.1 = q) = true) :
    (insertPair m q v).map Prod.fst = m.map Prod.fst := by
  rw [insertPair, if_pos hm]
  exact keys_map_overwrite q v m

theorem keys_insertPair_not_mem {q v : String} {m : List (String × String)}
    (hm : m.any (fun p => p.1 = q) = false) :
    (insertPair m q v).map Prod.fst = m.map Prod.fst ++ [q] := by
  simp [insertPair, hm]

theorem collectPairs_append_single (l : List (String × String))
    (p : String × String) :
    collectPairs (l ++ [p]) = insertPair (collectPairs l) p.1 p.2 := by
  simp [collectPairs, List.foldl_append]

theorem keys_collectPairs_nodup (l : List (String × String)) :
    ((collectPairs l).map Prod.fst).Nodup := by
  induction l using List.reverseRecOn with
  | nil => simp [collectPairs]
  | append_singleton l p ih =>
    rw [collectPairs_append_single]
    by_cases hm : (collectPairs l).any (fun x => x.1 = p.1) = true
    · rw [keys_insertPair_mem hm]
      exact ih
    · have hm2 : (collectPairs l).any (fun x => x.1 = p.1) = false :=
        Bool.eq_false_iff.mpr hm
      rw [keys_insertPair_not_mem hm2]
      have hnk : p.1 ∉ (collectPairs l).map Prod.fst := by
        intro hmem
        rcases List.mem_map.mp hmem with ⟨x, hx, hx1⟩
        exact no_key_of_any_false hm2 x hx hx1
      simp [List.nodup_append, ih, hnk]

theorem lookupVal_collectPairs (l : List (String × String)) (k : String) :
    lookupVal k (collectPairs l) =
      l.foldl (fun acc p => if p.1 = k then some p.2 else acc) none := by
  induction l using List.reverseRecOn with
  | nil => rfl
  | append_singleton l p ih =>
    rw [collectPairs_append_single, lookupVal_insertPair, List.foldl_append]
    by_cases hp : p.1 = k
    · simp [hp]
    · simp [hp, ih]

theorem foldl_skip_eq_lastMatch (k : String) :
    ∀ (elems : List (List Char)) (acc : Option String),
      ((elems.filterMap (fun e => (splitOnceChar '=' e).map
          (fun p => ((⟨p.1⟩ : String), (⟨p.2⟩ : String))))).foldl
        (fun acc p => if p.1 = k then some p.2 else acc) acc) =
      elems.foldl
        (fun acc e =>
          match splitOnceChar '=' e with
          | some p => if (⟨p.1⟩ : String) = k then some (⟨p.2⟩ : String) else acc
          | none => acc) acc
  | [], _ => rfl
  | e :: rest, acc => by
    cases hse : splitOnceChar '=' e with
    | none => simp [hse, foldl_skip_eq_lastMatch k rest acc]
    | some p => simp [hse, foldl_skip_eq_lastMatch k rest]

/-- C9: for every attribute string, the attribute-list parser splits on every
comma, silently drops each comma-split element that contains no `=` (without
aborting the rest), and produces a mapping with unique keys in which the last
occurrence of a repeated attribute name wins: looking a key up in the
produced mapping equals a left-to-right walk of the comma-split elements that
skips `=`-less elements and keeps the last value seen for that key. -/
theorem claim_C9 (s : String) :
    ((attrsOf s).map Prod.fst).Nodup ∧
    ∀ k : String, lookupVal k (attrsOf s) = lastMatch k (splitChar ',' s.data) := by
  constructor
  · exact keys_collectPairs_nodup _
  · intro k
    rw [attrsOf, lookupVal_collectPairs, rawPairs, lastMatch]
    exact foldl_skip_eq_lastMatch k (splitChar ',' s.data) none

/-- Witness for C9 at a concrete attribute string with a duplicated key and a
malformed (no `=`) element. -/
theorem claim_C9_witness :
    lookupVal "A" (attrsOf "A=1,B=2,garbage,A=3") =
      lastMatch "A" (splitChar ',' ("A=1,B=2,garbage,A=3" : String).data) ∧
    lookupVal "A" (attrsOf "A=1,B=2,garbage,A=3") = some "3" :=
  ⟨(claim_C9 "A=1,B=2,garbage,A=3").2 "A", by decide⟩

/-! ## C2: unrecognised attribute names -/

theorem readAttrsList_error_of_unrecognized {T B : Type}
    (fromStr : String → Except ParseAttributeError T)
    (rd : T → B → String → Except ParseAttributeError B) :
    ∀ (l : List (String × String)) (b : B) (kv : String × String),
      kv ∈ l → fromStr kv.1 = .error ⟨⟩ →
      readAttrsList fromStr rd l b = .error ⟨⟩ := by
  intro l
  induction l with
  | nil =>
    intro b kv hmem
    exact absurd hmem (List.not_mem_nil kv)
  | cons p rest ih =>
    intro b kv hmem herr
    rcases List.mem_cons.mp hmem with heq | hmem2
    · subst heq
      simp [readAttrsList, herr]
    · cases hfs : fromStr p.1 with
      | error e =>
        cases e
        simp [readAttrsList, hfs]
      | ok a =>
        cases hrd : rd a b p.2 with
        | error e =>
          cases e
          simp [readAttrsList, hfs, hrd]
        | ok b2 =>
          simp only [readAttrsList, hfs, hrd]
          exact ih b2 kv hmem2 herr

/-- C2 (amended): for every entity's attribute list, an attribute whose name
is not recognised for that entity is FATAL, not ignored: whenever the
collected attribute mapping contains a key the entity's name-resolution
rejects, `read_attributes` fails with an attribute-parse error, even when
every required field of the entity would otherwise be set. -/
theorem claim_C2 {T B : Type}
    (fromStr : String → Except ParseAttributeError T)
    (rd : T → B → String → Except ParseAttributeError B)
    (s : String) (b : B) (k v : String)
    (hmem : (k, v) ∈ attrsOf s) (hunrec : fromStr k = .error ⟨⟩) :
    read_attributes fromStr rd s b = .error ⟨⟩ := by
  rw [read_attributes]
  exact readAttrsList_error_of_unrecognized fromStr rd (attrsOf s) b (k, v)
    hmem hunrec

/-- Witness for C2 at the `PartialSegment` mapper and a concrete attribute
list carrying the unrecognised name `FOO`. -/
theorem claim_C2_witness :
    read_attributes PartialSegmentAttribute.from_str
      PartialSegmentAttribute.read "DURATION=1,URI=x,FOO=BAR"
      ({} : PartialSegmentBuilder) = .error ⟨⟩ :=
  claim_C2 PartialSegmentAttribute.from_str PartialSegmentAttribute.read
    "DURATION=1,URI=x,FOO=BAR" {} "FOO" "BAR" (by decide) (by rfl)

/-- C2 counterexample: with `DURATION` and `URI` both present (so every
required `PartialSegment` field ends up set, as the successful parse of the
same list without `FOO=BAR` shows), adding the unrecognised attribute
`FOO=BAR` makes the parse fail — the claim would require it to succeed. -/
theorem claim_C2_counterexample :
    PartialSegment.from_str "DURATION=1,URI=x" =
      .ok { part_duration := 1, uri := "x", independent := none } ∧
    PartialSegment.from_str "DURATION=1,URI=x,FOO=BAR" = .error ⟨⟩ :=
  ⟨by rfl, by rfl⟩

/-! ## C5: the header check trims both ends -/

/-- C5 (amended): for every input whose first line, after trimming BOTH
leading and trailing whitespace (Rust `str::trim`), is not exactly
`#EXTM3U`, `read_playlist` fails with the header-missing classification,
regardless of the remaining lines. -/
theorem claim_C5 (lines : List String)
    (h : trimStr (lines.headD "") ≠ "#EXTM3U") :
    read_playlist lines = .error .EXT3U_TAG_MISSING := by
  cases lines with
  | nil =>
    rw [read_playlist]
    exact if_neg (by simpa using h)
  | cons a rest =>
    rw [read_playlist]
    exact if_neg (by simpa using h)

/-- Witness for C5 at a concrete non-header first line. -/
theorem claim_C5_witness :
    read_playlist ["junk\n"] = .error .EXT3U_TAG_MISSING :=
  claim_C5 ["junk\n"] (by decide)

/-- C5 counterexample: a first line with a LEADING space is not `#EXTM3U`
after trailing-only trimming, yet the parse does not fail with the
header-missing classification (the code trims both ends, so the document
parses successfully). -/
theorem claim_C5_counterexample :
    trimEndStr " #EXTM3U\n" ≠ "#EXTM3U" ∧
    (read_playlist docLeadingWsHeader).isOk = true :=
  ⟨by decide, by rfl⟩

/-! ## C7: a tag line without a colon is classified IO_ERROR -/

theorem ne_empty_of_startsWith {line pat : String}
    (h : strStartsWith line pat = true) (hp : pat ≠ "") : line ≠ "" := by
  intro he
  subst he
  rw [strStartsWith] at h
  have hdata : pat.data = [] := by
    have hpre := (List.isPrefixOf_iff_prefix).mp h
    exact List.prefix_nil.mp hpre
  exact hp (by cases pat; simp_all)

/-- C7 (amended): a tag line (beginning `#EXT`) with no `:` separator makes
the parse fail, but the failure is classified as `IO_ERROR`, not as the
builder-error classification: first at the level of one scan step, then for
a whole document whose line after the header is such a line. -/
theorem claim_C7 :
    (∀ (line : String) (st : ScanState),
      strStartsWith line "#EXT" = true →
      strSplitOnce ':' (trimEndStr line) = none →
      scan_step line st = .error .IO_ERROR) ∧
    (∀ (line : String) (rest : List String),
      strStartsWith line "#EXT" = true →
      strSplitOnce ':' (trimEndStr line) = none →
      read_playlist ("#EXTM3U\n" :: line :: rest) = .error .IO_ERROR) := by
  have hstep : ∀ (line : String) (st : ScanState),
      strStartsWith line "#EXT" = true →
      strSplitOnce ':' (trimEndStr line) = none →
      scan_step line st = .error .IO_ERROR := by
    intro line st hext hcolon
    have htags : scan_step_tags line st = .error .IO_ERROR := by
      rw [scan_step_tags]
      simp [hext, hcolon]
    rw [scan_step, htags]
  refine ⟨hstep, ?_⟩
  intro line rest hext hcolon
  have hne : line ≠ "" := ne_empty_of_startsWith hext (by decide)
  rw [read_playlist]
  simp only [List.headD_cons, List.tail_cons]
  rw [if_pos (by decide)]
  rw [scan, if_neg hne, hstep line initState hext hcolon]

/-- Witness for C7 at a concrete colon-less tag line. -/
theorem claim_C7_witness :
    scan_step "#EXTBAR\n" initState = .error .IO_ERROR :=
  claim_C7.1 "#EXTBAR\n" initState (by decide) (by decide)

/-- C7 counterexample: the document whose second line is the colon-less tag
line `#EXTFOO` fails with `IO_ERROR`, which is not the builder-error
classification the claim requires. -/
theorem claim_C7_counterexample :
    read_playlist docNoColon = .error .IO_ERROR ∧
    ParsePlaylistError.IO_ERROR ≠ ParsePlaylistError.BUILDER_ERROR :=
  ⟨by rfl, by decide⟩

/-! ## C3: unrecognised tag lines are dispatched to the URI pseudo-tag -/

theorem startsWith_hash_of_startsWith_ext {line : String}
    (h : strStartsWith line "#EXT" = true) : strStartsWith line "#" = true := by
  rw [strStartsWith] at h ⊢
  have hpre := List.isPrefixOf_iff_prefix.mp h
  apply List.isPrefixOf_iff_prefix.mpr
  have hp : ("#" : String).data <+: ("#EXT" : String).data :=
    ⟨['E', 'X', 'T'], rfl⟩
  exact hp.trans hpre

/-- C3 (amended): a tag line whose name is neither a recognised
playlist-level tag nor one of the three recognised segment-level tag names
is NOT silently skipped: `MediaSegmentTag::from_str` falls through to the
URI pseudo-tag, so the playlist builder is left unchanged but the value
after the colon is URI-validated and written into the in-progress segment
builder's uri field, and the step fails with BUILDER_ERROR when URI
validation rejects that value; no segment is sealed. -/
theorem claim_C3 (line : String) (st : ScanState) (t0 t1 p tid : String)
    (hext : strStartsWith line "#EXT" = true)
    (hsplit : strSplitOnce ':' (trimEndStr line) = some (t0, t1))
    (hhash : strSplitOnce '#' t0 = some (p, tid))
    (hmpt : MediaPlaylistTag.from_str tid = .error ⟨⟩)
    (h1 : tid ≠ "EXTINF") (h2 : tid ≠ "EXT-X-PART")
    (h3 : tid ≠ "EXT-X-PROGRAM-DATE-TIME") :
    scan_step line st =
      match uriParse t1 with
      | some u => .ok { st with media_segment_builder :=
          { st.media_segment_builder with segment :=
            { st.media_segment_builder.segment with uri := some u } } }
      | none => .error .BUILDER_ERROR := by
  have hhst := startsWith_hash_of_startsWith_ext hext
  have hnend : ¬ (line = "EXT-X-ENDLIST") := by
    intro he
    rw [he] at hhst
    exact absurd hhst (by decide)
  have hmst : MediaSegmentTag.from_str tid = .ok .Uri := by
    rw [MediaSegmentTag.from_str]
    simp [h1, h2, h3]
  have hseal : ∀ st1, scan_step_seal line st1 = .ok st1 := by
    intro st1
    rw [scan_step_seal]
    rw [if_neg]
    simp [isUriLine, hhst, hnend]
  cases huri : uriParse t1 with
  | none =>
    have htags : scan_step_tags line st = .error .BUILDER_ERROR := by
      rw [scan_step_tags]
      simp [hext, hsplit, hhash, hmpt, hmst, MediaSegmentTag.read, huri]
    rw [scan_step, htags]
  | some u =>
    have htags : scan_step_tags line st =
        .ok { st with media_segment_builder :=
          { st.media_segment_builder with segment :=
            { st.media_segment_builder.segment with uri := some u } } } := by
      rw [scan_step_tags]
      simp [hext, hsplit, hhash, hmpt, hmst, MediaSegmentTag.read, huri]
    rw [scan_step, htags]
    exact hseal _

/-- Witness for C3: the unrecognised tag line `#EXT-X-BAR:x` writes `x` into
the segment builder's uri field of the fresh scan state. -/
theorem claim_C3_witness :
    scan_step "#EXT-X-BAR:x\n" initState =
      .ok { initState with media_segment_builder :=
        { initState.media_segment_builder with segment :=
          { initState.media_segment_builder.segment with uri := some "x" } } } :=
  claim_C3 "#EXT-X-BAR:x\n" initState "#EXT-X-BAR" "x" "" "EXT-X-BAR"
    (by decide) (by rfl) (by rfl) (by rfl) (by decide) (by decide) (by decide)

/-- C3 counterexample: the unrecognised tag line `#EXT-X-FOO:file.mp4`
changes the in-progress segment builder (its uri field becomes
`some "file.mp4"`), where the claim requires the builder state unchanged. -/
theorem claim_C3_counterexample :
    scan_step "#EXT-X-FOO:file.mp4\n" initState =
      .ok { initState with media_segment_builder :=
        { segment := { uri := some "file.mp4" }, parts := [] } } ∧
    ({ segment := { uri := some "file.mp4" }, parts := [] } :
        WrappedMediaSegmentBuilder) ≠ initState.media_segment_builder :=
  ⟨by rfl, by decide⟩

/-! ## C8: EXTINF parses only the text before the first comma -/

/-- C8: for every `EXTINF` tag value, only the portion before the first
comma is parsed as the segment duration — the outcome is the same function
of the duration text whatever title follows the comma — and a value
containing no comma at all is a hard tag-parse failure. -/
theorem claim_C8 :
    (∀ (a b : String) (w : WrappedMediaSegmentBuilder), ',' ∉ a.data →
      MediaSegmentTag.read .Inf w (a ++ "," ++ b) =
        match parseF32 a with
        | some d =>
          .ok { w with segment := { w.segment with duration := some d } }
        | none => .error ⟨⟩) ∧
    (∀ (s : String) (w : WrappedMediaSegmentBuilder), ',' ∉ s.data →
      MediaSegmentTag.read .Inf w s = .error ⟨⟩) := by
  constructor
  · intro a b w ha
    have hsplit : strSplitOnce ',' (a ++ "," ++ b) = some (a, b) := by
      rw [strSplitOnce]
      have hdata : (a ++ "," ++ b).data = a.data ++ ',' :: b.data := by
        simp [String.data_append]
      rw [hdata, splitOnceChar_append ha]
      rfl
    rw [MediaSegmentTag.read, hsplit]
    cases hd : parseF32 a with
    | none => simp [hd]
    | some d => simp [hd]
  · intro s w hs
    have hsplit : strSplitOnce ',' s = none := by
      rw [strSplitOnce, splitOnceChar_of_not_mem hs]
      rfl
    rw [MediaSegmentTag.read, hsplit]

/-- Witness for C8: duration text `6.0` with a nonempty ignored title. -/
theorem claim_C8_witness :
    MediaSegmentTag.read .Inf {} ("6.0" ++ "," ++ "a title") =
      .ok { segment := { duration := some (mkRat 6 1) }, parts := [] } :=
  claim_C8.1 "6.0" "a title" {} (by decide)

/-! ## C10: the UNRECOGNIZED_TAG variant is never produced -/

theorem scan_step_tags_no_unrecognized (l : String) (st : ScanState)
    (t : String) : scan_step_tags l st ≠ .error (.UNRECOGNIZED_TAG t) := by
  intro h
  rw [scan_step_tags] at h
  repeat' split at h
  all_goals simp_all

theorem scan_step_seal_no_unrecognized (l : String) (st1 : ScanState)
    (t : String) : scan_step_seal l st1 ≠ .error (.UNRECOGNIZED_TAG t) := by
  intro h
  rw [scan_step_seal] at h
  split at h
  · dsimp only at h
    split at h <;> simp_all
  · simp_all

theorem scan_step_no_unrecognized (l : String) (st : ScanState) (t : String) :
    scan_step l st ≠ .error (.UNRECOGNIZED_TAG t) := by
  intro h
  rw [scan_step] at h
  cases htags : scan_step_tags l st with
  | error e =>
    rw [htags] at h
    injection h with he
    rw [he] at htags
    exact scan_step_tags_no_unrecognized l st t htags
  | ok st1 =>
    rw [htags] at h
    exact scan_step_seal_no_unrecognized l st1 t h

theorem scan_no_unrecognized :
    ∀ (lines : List String) (st : ScanState) (t : String),
      scan lines st ≠ .error (.UNRECOGNIZED_TAG t)
  | [], st, t => by simp [scan]
  | l :: ls, st, t => by
    rw [scan]
    by_cases hl : l = ""
    · simp [hl]
    · rw [if_neg hl]
      cases hstep : scan_step l st with
      | error e =>
        intro h
        simp only at h
        injection h with he
        rw [he] at hstep
        exact scan_step_no_unrecognized l st t hstep
      | ok st1 =>
        simpa using scan_no_unrecognized ls st1 t

/-- C10: for every input, `read_playlist` never returns the
`UNRECOGNIZED_TAG` error variant: although declared in the error enum, no
execution path produces it. -/
theorem claim_C10 (lines : List String) (t : String) :
    read_playlist lines ≠ .error (.UNRECOGNIZED_TAG t) := by
  intro h
  rw [read_playlist] at h
  split at h
  · split at h
    · cases h
      next heq =>
        exact scan_no_unrecognized lines.tail initState t heq
    · rw [finalBuild] at h
      split at h <;> simp_all
  · simp at h

/-- Witness for C10 at a concrete input and tag. -/
theorem claim_C10_witness :
    read_playlist [] ≠ .error (.UNRECOGNIZED_TAG "X") :=
  claim_C10 [] "X"

/-! ## C6: the mandatory playlist fields -/

/-- C6: `read_playlist` succeeds only if `target_duration`, `version`,
`part_inf`, `media_sequence_number` and `server_control` were each set at
least once during the scan (the end-of-scan builder holds a value for each);
a document whose `EXT-X-SERVER-CONTROL` tag omits `CAN-BLOCK-RELOAD` fails
with the document-parse (builder) classification; and the `media_segments`
and `rendition_reports` lists never block the final sealing — it succeeds as
soon as the mandatory scalar fields (plus the default-initialised `skip` and
`preload_hint`) are present, whatever the list-builder fields hold. -/
theorem claim_C6 :
    (∀ (lines : List String) (p : MediaPlaylist),
      read_playlist lines = .ok p →
      ∃ st : ScanState, scan lines.tail initState = .ok st ∧
        st.builder.playlist.target_duration.isSome = true ∧
        st.builder.playlist.version.isSome = true ∧
        st.builder.playlist.part_inf.isSome = true ∧
        st.builder.playlist.media_sequence_number.isSome = true ∧
        st.builder.playlist.server_control.isSome = true) ∧
    read_playlist docNoCBR = .error .BUILDER_ERROR ∧
    (∀ st : ScanState,
      st.builder.playlist.target_duration.isSome = true →
      st.builder.playlist.version.isSome = true →
      st.builder.playlist.part_inf.isSome = true →
      st.builder.playlist.media_sequence_number.isSome = true →
      st.builder.playlist.server_control.isSome = true →
      st.builder.playlist.skip.isSome = true →
      st.builder.playlist.preload_hint.isSome = true →
      (finalBuild st).isOk = true) := by
  refine ⟨?_, by rfl, ?_⟩
  · intro lines p h
    rw [read_playlist] at h
    split at h
    · cases hscan : scan lines.tail initState with
      | error e =>
        rw [hscan] at h
        exact absurd h (by simp)
      | ok st =>
        rw [hscan] at h
        dsimp only at h
        refine ⟨st, rfl, ?_⟩
        rw [finalBuild] at h
        split at h
        · exact absurd h (by simp)
        · next q hb =>
          rw [MediaPlaylistBuilder.build] at hb
          split at hb <;> simp_all
    · exact absurd h (by simp)
  · intro st h1 h2 h3 h4 h5 h6 h7
    rcases Option.isSome_iff_exists.mp h1 with ⟨td, htd⟩
    rcases Option.isSome_iff_exists.mp h2 with ⟨v, hv⟩
    rcases Option.isSome_iff_exists.mp h3 with ⟨pi, hpi⟩
    rcases Option.isSome_iff_exists.mp h4 with ⟨msn, hmsn⟩
    rcases Option.isSome_iff_exists.mp h5 with ⟨sc, hsc⟩
    rcases Option.isSome_iff_exists.mp h6 with ⟨sk, hsk⟩
    rcases Option.isSome_iff_exists.mp h7 with ⟨ph, hph⟩
    rw [finalBuild, MediaPlaylistBuilder.build]
    simp only [htd, hv, hpi, hmsn, hsc, hsk, hph]
    rfl

/-- Witness for C6: final sealing succeeds on a state with all mandatory
scalar fields set even though both list-builder fields are unset. -/
theorem claim_C6_witness : (finalBuild stAllSet).isOk = true :=
  claim_C6.2.2 stAllSet rfl rfl rfl rfl rfl rfl rfl

/-! ## C1: the segment-boundary rule -/

theorem startsWith_hash_of_startsWith_extx {line : String}
    (h : strStartsWith line "#EXT-X" = true) :
    strStartsWith line "#" = true := by
  rw [strStartsWith] at h ⊢
  have hpre := List.isPrefixOf_iff_prefix.mp h
  apply List.isPrefixOf_iff_prefix.mpr
  have hp : ("#" : String).data <+: ("#EXT-X" : String).data :=
    ⟨['E', 'X', 'T', '-', 'X'], rfl⟩
  exact hp.trans hpre

/-- The boundary step itself: processing a resource-locator line with a
duration already set seals the in-progress segment — all accumulated partial
segments in order — appends it, and resets the segment builder. -/
theorem scan_step_uri_seals (line : String) (st : ScanState) (d : ℚ)
    (u : String)
    (h1 : strStartsWith line "#" = false)
    (h2 : trimStr line ≠ "")
    (h3 : MediaSegmentTag.from_str line = .ok .Uri)
    (h4 : uriParse (trimEndStr line) = some u)
    (h5 : st.media_segment_builder.segment.duration = some d) :
    scan_step line st = .ok
      { builder := { st.builder with media_segments :=
          st.builder.media_segments ++
            [{ duration := d, uri := u,
               partial_segments := st.media_segment_builder.parts,
               program_date_time :=
                 st.media_segment_builder.segment.program_date_time.getD none }] },
        media_segment_builder := {} } := by
  have hextx : strStartsWith line "#EXT-X" = false := by
    cases hx : strStartsWith line "#EXT-X" with
    | false => rfl
    | true =>
      rw [startsWith_hash_of_startsWith_extx hx] at h1
      exact absurd h1 (by simp)
  have hext : strStartsWith line "#EXT" = false := by
    cases hx : strStartsWith line "#EXT" with
    | false => rfl
    | true =>
      rw [startsWith_hash_of_startsWith_ext hx] at h1
      exact absurd h1 (by simp)
  have huri : isUriLine line = true := by simp [isUriLine, h1, h2]
  have htags : scan_step_tags line st = .ok
      { st with media_segment_builder :=
        { st.media_segment_builder with segment :=
          { st.media_segment_builder.segment with uri := some u } } } := by
    rw [scan_step_tags]
    simp [hextx, hext, huri, h3, MediaSegmentTag.read, h4]
  rw [scan_step, htags]
  dsimp only
  rw [scan_step_seal, if_pos (by simp [huri])]
  cases hpd : st.media_segment_builder.segment.program_date_time with
  | none => simp [hpd, MediaSegmentBuilder.build, h5]
  | some x => simp [hpd, MediaSegmentBuilder.build, h5]

/-- C1: whenever a resource-locator line is observed (with a parseable URI
and the duration already set), the in-progress segment builder — every
partial segment accumulated since the previous boundary, in appearance
order — is sealed into one completed MediaSegment appended to the segment
list, and a fresh empty segment builder begins; and on the spec's sample
document extended with two consecutive `#EXT-X-PART` lines before the
locator line, the result holds exactly one MediaSegment containing exactly
those two PartialSegments in order. -/
theorem claim_C1 :
    (∀ (line : String) (st : ScanState) (d : ℚ) (u : String),
      strStartsWith line "#" = false →
      trimStr line ≠ "" →
      MediaSegmentTag.from_str line = .ok .Uri →
      uriParse (trimEndStr line) = some u →
      st.media_segment_builder.segment.duration = some d →
      scan_step line st = .ok
        { builder := { st.builder with media_segments :=
            st.builder.media_segments ++
              [{ duration := d, uri := u,
                 partial_segments := st.media_segment_builder.parts,
                 program_date_time :=
                   st.media_segment_builder.segment.program_date_time.getD none }] },
          media_segment_builder := {} }) ∧
    read_playlist docTwoParts = .ok
      { target_duration := 6,
        version := 9,
        part_inf := ⟨mkRat 1 2⟩,
        media_sequence_number := 0,
        media_segments :=
          [{ duration := mkRat 6 1,
             uri := "file0.mp4",
             partial_segments :=
               [⟨mkRat 1 2, "\"p0.mp4\"", none⟩,
                ⟨mkRat 1 2, "\"p1.mp4\"", some true⟩],
             program_date_time := none }],
        skip := none,
        preload_hint := none,
        rendition_reports := [],
        server_control := ⟨true, mkRat 3 2, mkRat 6 1⟩ } :=
  ⟨fun line st d u h1 h2 h3 h4 h5 =>
    scan_step_uri_seals line st d u h1 h2 h3 h4 h5, by rfl⟩

/-- Witness for C1: the locator line `seg.mp4` seals the two accumulated
partial segments of `stSegReady` into one appended segment and resets the
builder. -/
theorem claim_C1_witness :
    scan_step "seg.mp4\n" stSegReady = .ok
      { builder := { stSegReady.builder with media_segments :=
          stSegReady.builder.media_segments ++
            [{ duration := mkRat 5 1, uri := "seg.mp4",
               partial_segments := stSegReady.media_segment_builder.parts,
               program_date_time :=
                 stSegReady.media_segment_builder.segment.program_date_time.getD none }] },
        media_segment_builder := {} } :=
  claim_C1.1 "seg.mp4\n" stSegReady (mkRat 5 1) "seg.mp4"
    (by rfl) (by decide) (by rfl) (by rfl) (by rfl)

/-! ## C4: the PartialSegment parse/serialize round trip -/

theorem strExt {a b : String} (h : a.data = b.data) : a = b := by
  cases a
  cases b
  exact congrArg String.mk h

theorem partialSegment_parse_two (f s0 : String) (d : ℚ)
    (hfc : ',' ∉ f.data)
    (hfp : parseF32 f = some d)
    (hsc : ',' ∉ s0.data) :
    PartialSegment.from_str
        ("DURATION=" ++ f ++ "," ++ "URI=" ++ ("\"" ++ s0 ++ "\"")) =
      .ok ⟨d, "\"" ++ s0 ++ "\"", none⟩ := by
  set u : String := "\"" ++ s0 ++ "\"" with hu
  have hud : u.data = '"' :: (s0.data ++ ['"']) := by
    rw [hu]
    simp [String.data_append]
  have hsdata : ("DURATION=" ++ f ++ "," ++ "URI=" ++ u).data
      = ("DURATION".data ++ '=' :: f.data) ++
          ',' :: ("URI".data ++ '=' :: u.data) := by
    simp [String.data_append]
  have hnc1 : ',' ∉ ("DURATION".data ++ '=' :: f.data) := by
    intro hm
    rcases List.mem_append.mp hm with h | h
    · exact absurd h (by decide)
    · rcases List.mem_cons.mp h with h | h
      · exact absurd h (by decide)
      · exact hfc h
  have hnc2 : ',' ∉ ("URI".data ++ '=' :: u.data) := by
    intro hm
    rcases List.mem_append.mp hm with h | h
    · exact absurd h (by decide)
    · rcases List.mem_cons.mp h with h | h
      · exact absurd h (by decide)
      · rw [hud] at h
        rcases List.mem_cons.mp h with h | h
        · exact absurd h (by decide)
        · rcases List.mem_append.mp h with h | h
          · exact hsc h
          · exact absurd h (by decide)
  have hsplit : splitChar ',' ("DURATION=" ++ f ++ "," ++ "URI=" ++ u).data
      = [("DURATION".data ++ '=' :: f.data), ("URI".data ++ '=' :: u.data)] := by
    rw [hsdata, splitChar_append hnc1, splitChar_of_not_mem hnc2]
  have hattrs : attrsOf ("DURATION=" ++ f ++ "," ++ "URI=" ++ u)
      = [("DURATION", f), ("URI", u)] := by
    rw [attrsOf, rawPairs, hsplit]
    rfl
  rw [PartialSegment.from_str, read_attributes, hattrs]
  simp [readAttrsList, PartialSegmentAttribute.from_str,
    PartialSegmentAttribute.read, hfp, PartialSegmentBuilder.build]

theorem partialSegment_parse_three (f s0 : String) (d : ℚ)
    (hfc : ',' ∉ f.data)
    (hfp : parseF32 f = some d)
    (hsc : ',' ∉ s0.data) :
    PartialSegment.from_str
        ("DURATION=" ++ f ++ "," ++ "URI=" ++ ("\"" ++ s0 ++ "\"") ++ "," ++
          "INDEPENDENT=YES") =
      .ok ⟨d, "\"" ++ s0 ++ "\"", some true⟩ := by
  set u : String := "\"" ++ s0 ++ "\"" with hu
  have hud : u.data = '"' :: (s0.data ++ ['"']) := by
    rw [hu]
    simp [String.data_append]
  have hsdata :
      ("DURATION=" ++ f ++ "," ++ "URI=" ++ u ++ "," ++ "INDEPENDENT=YES").data
      = ("DURATION".data ++ '=' :: f.data) ++
          ',' :: (("URI".data ++ '=' :: u.data) ++
            ',' :: ("INDEPENDENT=YES" : String).data) := by
    simp [String.data_append]
  have hnc1 : ',' ∉ ("DURATION".data ++ '=' :: f.data) := by
    intro hm
    rcases List.mem_append.mp hm with h | h
    · exact absurd h (by decide)
    · rcases List.mem_cons.mp h with h | h
      · exact absurd h (by decide)
      · exact hfc h
  have hnc2 : ',' ∉ ("URI".data ++ '=' :: u.data) := by
    intro hm
    rcases List.mem_append.mp hm with h | h
    · exact absurd h (by decide)
    · rcases List.mem_cons.mp h with h | h
      · exact absurd h (by decide)
      · rw [hud] at h
        rcases List.mem_cons.mp h with h | h
        · exact absurd h (by decide)
        · rcases List.mem_append.mp h with h | h
          · exact hsc h
          · exact absurd h (by decide)
  have hsplit : splitChar ','
        ("DURATION=" ++ f ++ "," ++ "URI=" ++ u ++ "," ++ "INDEPENDENT=YES").data
      = [("DURATION".data ++ '=' :: f.data), ("URI".data ++ '=' :: u.data),
         ("INDEPENDENT=YES" : String).data] := by
    rw [hsdata, splitChar_append hnc1, splitChar_append hnc2,
      splitChar_of_not_mem (by decide)]
  have hattrs :
      attrsOf ("DURATION=" ++ f ++ "," ++ "URI=" ++ u ++ "," ++ "INDEPENDENT=YES")
      = [("DURATION", f), ("URI", u), ("INDEPENDENT", "YES")] := by
    rw [attrsOf, rawPairs, hsplit]
    rfl
  rw [PartialSegment.from_str, read_attributes, hattrs]
  simp [readAttrsList, PartialSegmentAttribute.from_str,
    PartialSegmentAttribute.read, hfp, PartialSegmentBuilder.build,
    YesNo.from_str, YesNo.toBool]

theorem partialSegment_fmt_two (f s0 : String) (d : ℚ)
    (hfd : dispF32 d = f) :
    PartialSegment.fmt ⟨d, "\"" ++ s0 ++ "\"", none⟩ =
      "#EXT-X-PART:" ++
        ("DURATION=" ++ f ++ "," ++ "URI=" ++ ("\"" ++ s0 ++ "\"")) := by
  apply strExt
  rw [PartialSegment.fmt]
  simp [joinComma, hfd, String.data_append, List.append_assoc]

theorem partialSegment_fmt_three (f s0 : String) (d : ℚ)
    (hfd : dispF32 d = f) :
    PartialSegment.fmt ⟨d, "\"" ++ s0 ++ "\"", some true⟩ =
      "#EXT-X-PART:" ++
        ("DURATION=" ++ f ++ "," ++ "URI=" ++ ("\"" ++ s0 ++ "\"") ++ "," ++
          "INDEPENDENT=YES") := by
  apply strExt
  rw [PartialSegment.fmt]
  simp [joinComma, hfd, String.data_append, List.append_assoc]

/-- C4 (amended): for attribute strings `DURATION=<f>,URI="<s>"` optionally
followed by `,INDEPENDENT=YES` — with `INDEPENDENT=NO` excluded (the code
serializes an explicit false as the unparseable literal `FALSE`), the
duration text in canonical float-display form (a non-canonical text such as
`1.50` is rewritten on serialization), and no commas inside `<f>` or `<s>`
(the comma-split is not quote-aware) — parsing yields the expected fields
(URI kept verbatim with its quotes, absent INDEPENDENT left unset), and
serializing that `PartialSegment` reproduces exactly `#EXT-X-PART:` followed
by the original attribute string; re-parsing the attribute portion therefore
yields field-for-field equal results, and DURATION, URI and INDEPENDENT's
presence are preserved exactly. -/
theorem claim_C4 (f s0 : String) (d : ℚ) (b : Bool)
    (hfc : ',' ∉ f.data)
    (hfp : parseF32 f = some d)
    (hfd : dispF32 d = f)
    (hsc : ',' ∉ s0.data) :
    PartialSegment.from_str
        ("DURATION=" ++ f ++ "," ++ "URI=" ++ ("\"" ++ s0 ++ "\"") ++
          (if b then "," ++ "INDEPENDENT=YES" else "")) =
      .ok ⟨d, "\"" ++ s0 ++ "\"", if b then some true else none⟩ ∧
    PartialSegment.fmt ⟨d, "\"" ++ s0 ++ "\"", if b then some true else none⟩ =
      "#EXT-X-PART:" ++
        ("DURATION=" ++ f ++ "," ++ "URI=" ++ ("\"" ++ s0 ++ "\"") ++
          (if b then "," ++ "INDEPENDENT=YES" else "")) := by
  cases b with
  | false =>
    refine ⟨?_, ?_⟩
    · have h := partialSegment_parse_two f s0 d hfc hfp hsc
      simpa using h
    · have h := partialSegment_fmt_two f s0 d hfd
      simpa using h
  | true =>
    refine ⟨?_, ?_⟩
    · have h := partialSegment_parse_three f s0 d hfc hfp hsc
      simpa [String.append_assoc] using h
    · have h := partialSegment_fmt_three f s0 d hfd
      simpa [String.append_assoc] using h

/-- Witness for C4 at the canonical duration text `0.5`, the quoted URI
`"p0.mp4"` and an explicit `INDEPENDENT=YES`. -/
theorem claim_C4_witness :
    PartialSegment.from_str "DURATION=0.5,URI=\"p0.mp4\",INDEPENDENT=YES" =
      .ok ⟨mkRat 1 2, "\"p0.mp4\"", some true⟩ ∧
    PartialSegment.fmt ⟨mkRat 1 2, "\"p0.mp4\"", some true⟩ =
      "#EXT-X-PART:DURATION=0.5,URI=\"p0.mp4\",INDEPENDENT=YES" :=
  claim_C4 "0.5" "p0.mp4" (mkRat 1 2) true (by decide) (by rfl) (by rfl)
    (by decide)

/-- C4 counterexample: the input `DURATION=1.50,URI="x",INDEPENDENT=NO` is
of the claim's form, yet serializing the parsed `PartialSegment` rewrites
the DURATION text from `1.50` to `1.5` (not preserved exactly) and writes
the explicit false as `FALSE`, and re-parsing the serialized attribute list
fails instead of yielding an equal `PartialSegment`. -/
theorem claim_C4_counterexample :
    PartialSegment.from_str "DURATION=1.50,URI=\"x\",INDEPENDENT=NO" =
      .ok ⟨mkRat 3 2, "\"x\"", some false⟩ ∧
    PartialSegment.fmt ⟨mkRat 3 2, "\"x\"", some false⟩ =
      "#EXT-X-PART:DURATION=1.5,URI=\"x\",INDEPENDENT=FALSE" ∧
    PartialSegment.from_str "DURATION=1.5,URI=\"x\",INDEPENDENT=FALSE" =
      .error ⟨⟩ :=
  ⟨by rfl, by rfl, by rfl⟩

end LLHLS
